import Mathlib

/-!
Shallow embedding of the wasmtime-environ compilation cache
(src/wasmtime-environ/src/cache.rs): global cache configuration with
exactly-once initialization, SHA-256 cache-key derivation, the on-disk
key-to-path mapping scheme, and the load/store protocol.

Filesystem and external-crate effects (fs reads/writes, zstd, bincode,
sha2) are modelled by explicit environments: each fallible external call
takes its outcome from the environment, and every filesystem operation a
function performs is recorded in an explicit trace.  Rust paths are
modelled as lists of components, each component a list of characters.
-/

/-- Bytes are natural numbers (the values fed to base64 are below 256). -/
abbrev Bytes := List Nat

/-- A filesystem path, as its list of components (PathBuf.join appends one). -/
abbrev CPath := List (List Char)

/-! ## base64 URL_SAFE_NO_PAD (the base64 crate, encode_config) -/

/-- The URL-safe base64 alphabet, table of 64 characters. -/
def base64UrlTable : List Char :=
  "ABCDEFGHIJKLMNOPQRSTUVWXYZabcdefghijklmnopqrstuvwxyz0123456789-_".data

/-- Character for a 6-bit value. -/
def base64UrlChar (n : Nat) : Char := base64UrlTable.getD n 'A'

/-- base64 encoding with the URL-safe alphabet and no padding, as performed
by base64::encode_config(.., base64::URL_SAFE_NO_PAD) on a byte slice. -/
def base64UrlNoPad : Bytes → List Char
  | [] => []
  | [b1] => [base64UrlChar (b1 / 4), base64UrlChar (b1 % 4 * 16)]
  | [b1, b2] =>
      [base64UrlChar (b1 / 4), base64UrlChar (b1 % 4 * 16 + b2 / 16),
       base64UrlChar (b2 % 16 * 4)]
  | b1 :: b2 :: b3 :: rest =>
      base64UrlChar (b1 / 4) :: base64UrlChar (b1 % 4 * 16 + b2 / 16) ::
      base64UrlChar (b2 % 16 * 4 + b3 / 64) :: base64UrlChar (b3 % 64) ::
      base64UrlNoPad rest

theorem base64UrlNoPad_length (l : Bytes) :
    (base64UrlNoPad l).length = (4 * l.length + 2) / 3 := by
  induction l using base64UrlNoPad.induct with
  | case1 => rfl
  | case2 b1 => simp [base64UrlNoPad]
  | case3 b1 b2 => simp [base64UrlNoPad]
  | case4 b1 b2 b3 rest ih =>
      simp only [base64UrlNoPad, List.length_cons, ih]
      omega

theorem base64UrlChar_mem_table (n : Nat) : base64UrlChar n ∈ base64UrlTable := by
  unfold base64UrlChar
  rcases Nat.lt_or_ge n base64UrlTable.length with h | h
  · rw [List.getD_eq_getElem _ _ h]
    exact List.getElem_mem h
  · rw [List.getD_eq_default _ _ h]
    decide

theorem base64UrlNoPad_mem (l : Bytes) (c : Char) (hc : c ∈ base64UrlNoPad l) :
    c ∈ base64UrlTable := by
  induction l using base64UrlNoPad.induct with
  | case1 => simp [base64UrlNoPad] at hc
  | case2 b1 =>
      simp only [base64UrlNoPad, List.mem_cons, List.mem_singleton] at hc
      rcases hc with h | h | h
      · exact h ▸ base64UrlChar_mem_table _
      · exact h ▸ base64UrlChar_mem_table _
      · exact absurd h (by simp)
  | case3 b1 b2 =>
      simp only [base64UrlNoPad, List.mem_cons] at hc
      rcases hc with h | h | h | h
      · exact h ▸ base64UrlChar_mem_table _
      · exact h ▸ base64UrlChar_mem_table _
      · exact h ▸ base64UrlChar_mem_table _
      · exact absurd h (by simp)
  | case4 b1 b2 b3 rest ih =>
      simp only [base64UrlNoPad, List.mem_cons] at hc
      rcases hc with h | h | h | h | h
      · exact h ▸ base64UrlChar_mem_table _
      · exact h ▸ base64UrlChar_mem_table _
      · exact h ▸ base64UrlChar_mem_table _
      · exact h ▸ base64UrlChar_mem_table _
      · exact ih h

/-! ## The conf module: global cache configuration (cache.rs, mod conf) -/

/-- The Config struct of mod conf: enabled flag, cache directory,
zstd compression level. -/
structure Config where
  cache_enabled : Bool
  cache_dir : CPath
  compression_level : Int
deriving DecidableEq, Repr

/-- DEFAULT_COMPRESSION_LEVEL: 0, which for zstd means use the default. -/
def DEFAULT_COMPRESSION_LEVEL : Int := 0

/-- Config::new_cache_disabled: disabled, empty PathBuf, default level. -/
def Config.new_cache_disabled : Config :=
  { cache_enabled := false, cache_dir := [], compression_level := DEFAULT_COMPRESSION_LEVEL }

/-- Outcomes of the external calls made during configuration resolution:
the platform project-dirs lookup, fs::create_dir_all and fs::canonicalize. -/
structure ConfigEnv where
  projectCacheDir : Option CPath
  createDirAllOk : CPath → Bool
  canonicalize : CPath → Option CPath

/-- Config::new_step2: create the directory recursively, then canonicalize;
either failure falls back to the disabled configuration (with a warning). -/
def Config.new_step2 (env : ConfigEnv) (dir : CPath) (compression_level : Int) : Config :=
  if env.createDirAllOk dir then
    match env.canonicalize dir with
    | some p =>
        { cache_enabled := true, cache_dir := p, compression_level := compression_level }
    | none => Config.new_cache_disabled
  else Config.new_cache_disabled

/-- Config::new: if enabled, resolve the directory (explicit one, or the
platform default project cache dir) through new_step2; when the default
cannot be found, or when not enabled, yield the disabled configuration. -/
def Config.new (env : ConfigEnv) (enabled : Bool) (dir : Option CPath)
    (compression_level : Int) : Config :=
  if enabled then
    match dir with
    | some d => Config.new_step2 env d compression_level
    | none =>
        match env.projectCacheDir with
        | some d => Config.new_step2 env d compression_level
        | none => Config.new_cache_disabled
  else Config.new_cache_disabled

/-- The process-wide state of mod conf: the CONFIG Once cell and the
INIT_CALLED atomic flag. -/
structure ConfState where
  config : Option Config
  initCalled : Bool
deriving DecidableEq, Repr

/-- The state of a process that never touched the cache system. -/
def ConfState.fresh : ConfState := { config := none, initCalled := false }

/-- conf::cache_enabled: CONFIG.call_once(Config::new_cache_disabled).cache_enabled.
Returns the enabled flag and the (possibly newly frozen) state. -/
def conf.cache_enabled (s : ConfState) : Bool × ConfState :=
  match s.config with
  | some c => (c.cache_enabled, s)
  | none =>
      (Config.new_cache_disabled.cache_enabled,
       { s with config := some Config.new_cache_disabled })

/-- conf::cache_directory: CONFIG.try().expect(..).cache_dir.
none models the panic taken when CONFIG has never been written. -/
def conf.cache_directory (s : ConfState) : Option CPath :=
  (s.config).map Config.cache_dir

/-- conf::compression_level: CONFIG.try().expect(..).compression_level.
none models the panic taken when CONFIG has never been written. -/
def conf.compression_level (s : ConfState) : Option Int :=
  (s.config).map Config.compression_level

/-- conf::init: INIT_CALLED.compare_exchange(false, true).expect(..) panics on
a second call; the assert that CONFIG is still unset panics when an implicit
read already froze the configuration; otherwise CONFIG.call_once freezes
Config::new(..).  none models a panic. -/
def conf.init (env : ConfigEnv) (s : ConfState) (enabled : Bool) (dir : Option CPath)
    (compression_level : Option Int) : Option ConfState :=
  if s.initCalled then none
  else if (s.config).isSome then none
  else
    some { config := some (Config.new env enabled dir
             (compression_level.getD DEFAULT_COMPRESSION_LEVEL)),
           initCalled := true }

/-! ## ModuleCacheEntry: key derivation, path scheme, load and store -/

/-- A filesystem operation performed by the cache, recorded in a trace. -/
inductive FsOp where
  | readFile (p : CPath)
  | writeFile (p : CPath) (data : Bytes)
  | createDirAll (p : CPath)
  | removeFile (p : CPath)
deriving DecidableEq, Repr

/-- Log events emitted by the cache (warn and debug lines). -/
inductive LogEvent where
  | warnDecompressFail
  | warnDeserializeFail
  | warnSerializeFail
  | warnCompressFail
  | debugRetryAfterWriteFail
  | warnCreateDirFail
  | warnWriteFail
  | warnCleanupFail
deriving DecidableEq, Repr

/-- Kind of an io::Error, as far as the cache distinguishes them. -/
inductive IoErrKind where
  | notFound
  | other
deriving DecidableEq, Repr

/-- ModuleCacheEntry: a per-compilation handle holding the resolved cache
path, or none when caching is disabled. -/
structure ModuleCacheEntry where
  mod_cache_path : Option CPath
deriving DecidableEq, Repr

/-- Compile-time and process-wide identity data used by path construction:
the GIT_REV compile-time environment variable, the SELF_MTIME lazy static,
and the cfg(debug_assertions) flag. -/
structure BuildEnv where
  gitRev : List Char
  selfMtime : List Char
  debugAssertions : Bool

section EntryModel

variable {Module FuncBodies Payload : Type}

/-- Sha256Hasher::digest: module.hash_for_cache feeds every compile-relevant
byte of the module and its function bodies into the hasher (hashForCache,
modelled from the spec since Module::hash_for_cache is outside the sampled
file, gives that byte stream), and the result is the SHA-256 digest (sha256,
the sha2 crate) of exactly that stream.  Note the byte stream, and hence the
digest, is a function of the module and function bodies alone. -/
def Sha256Hasher.digest (sha256 : Bytes → Bytes)
    (hashForCache : Module → FuncBodies → Bytes)
    (module : Module) (function_body_inputs : FuncBodies) : Bytes :=
  sha256 (hashForCache module function_body_inputs)

/-- ModuleCacheEntry::new: read conf::cache_enabled (freezing the
configuration when it is the first read); when enabled, derive the digest,
build the compiler directory name (compiler name, GIT_REV, and in
debug-assertion builds the executable mtime), build the module filename
mod-(base64 url-safe no-pad digest) with a .d suffix exactly when debug info
was requested, and join them under the cache directory.  The result is the
entry together with the possibly updated configuration state; none models
the conf::cache_directory panic, which is unreachable because a successful
enabled read means the configuration is frozen. -/
def ModuleCacheEntry.new (benv : BuildEnv) (s : ConfState)
    (sha256 : Bytes → Bytes) (hashForCache : Module → FuncBodies → Bytes)
    (module : Module) (function_body_inputs : FuncBodies)
    (isaTriple : List Char) (compiler_name : List Char)
    (generate_debug_info : Bool) : Option (ModuleCacheEntry × ConfState) :=
  let r := conf.cache_enabled s
  if r.1 then
    let hash := Sha256Hasher.digest sha256 hashForCache module function_body_inputs
    let compiler_dir :=
      if benv.debugAssertions then
        compiler_name ++ ('-' :: benv.gitRev) ++ ('-' :: benv.selfMtime)
      else
        compiler_name ++ ('-' :: benv.gitRev)
    let mod_filename :=
      "mod-".data ++ base64UrlNoPad hash ++
        (if generate_debug_info then ".d".data else [])
    match conf.cache_directory r.2 with
    | some dir =>
        some (⟨some (dir ++ [isaTriple, compiler_dir, mod_filename])⟩, r.2)
    | none => none
  else
    some (⟨none⟩, r.2)

/-- Environment for get_data: the filesystem contents (fs::read, none models
any read error including not-found), zstd::decode_all and
bincode::deserialize, each returning none on failure. -/
structure LoadEnv (Payload : Type) where
  readFile : CPath → Option Bytes
  decompress : Bytes → Option Bytes
  deserialize : Bytes → Option Payload

/-- ModuleCacheEntry::get_data: miss without I/O when there is no resolved
path; otherwise read the file, decompress, deserialize, treating every
failure as a miss.  Returns the result, the trace of filesystem operations
performed, and the log events emitted. -/
def ModuleCacheEntry.get_data (e : ModuleCacheEntry) (env : LoadEnv Payload) :
    Option Payload × List FsOp × List LogEvent :=
  match e.mod_cache_path with
  | none => (none, [], [])
  | some path =>
      match env.readFile path with
      | none => (none, [.readFile path], [])
      | some compressed_cache_bytes =>
          match env.decompress compressed_cache_bytes with
          | none => (none, [.readFile path], [.warnDecompressFail])
          | some cache_bytes =>
              match env.deserialize cache_bytes with
              | none => (none, [.readFile path], [.warnDeserializeFail])
              | some data => (some data, [.readFile path], [])

/-- Environment for update_data: outcomes of bincode::serialize,
zstd::encode_all at the configured level, the first fs::write, the
fs::create_dir_all retry preparation, the second fs::write, and
fs::remove_file.  For the write, create and remove outcomes, none means
success and some gives the error kind. -/
structure StoreEnv where
  serializeR : Option Bytes
  compressR : Int → Option Bytes
  write1Err : Option IoErrKind
  mkdirErr : Option IoErrKind
  write2Err : Option IoErrKind
  removeErr : Option IoErrKind

/-- ModuleCacheEntry::update_data_impl: no-op without a resolved path;
serialize, compress at conf::compression_level (the outer none models the
panic of reading an unfrozen configuration), then try writing; on failure
create the parent directories and retry once; if the retry fails too,
remove the partial file, warning on a removal failure other than not-found.
Returns the early-return marker, the filesystem trace and the log. -/
def ModuleCacheEntry.update_data_impl (s : ConfState) (e : ModuleCacheEntry)
    (env : StoreEnv) : Option (Option Unit × List FsOp × List LogEvent) :=
  match e.mod_cache_path with
  | none => some (none, [], [])
  | some path =>
      match env.serializeR with
      | none => some (none, [], [.warnSerializeFail])
      | some _serialized_data =>
          match conf.compression_level s with
          | none => none
          | some lvl =>
              match env.compressR lvl with
              | none => some (none, [], [.warnCompressFail])
              | some compressed_data =>
                  match env.write1Err with
                  | none => some (some (), [.writeFile path compressed_data], [])
                  | some _err1 =>
                      let cache_dir := path.dropLast
                      match env.mkdirErr with
                      | some _ =>
                          some (none,
                            [.writeFile path compressed_data, .createDirAll cache_dir],
                            [.debugRetryAfterWriteFail, .warnCreateDirFail])
                      | none =>
                          match env.write2Err with
                          | none =>
                              some (some (),
                                [.writeFile path compressed_data, .createDirAll cache_dir,
                                 .writeFile path compressed_data],
                                [.debugRetryAfterWriteFail])
                          | some _ =>
                              match env.removeErr with
                              | none =>
                                  some (some (),
                                    [.writeFile path compressed_data, .createDirAll cache_dir,
                                     .writeFile path compressed_data, .removeFile path],
                                    [.debugRetryAfterWriteFail, .warnWriteFail])
                              | some k =>
                                  some (none,
                                    [.writeFile path compressed_data, .createDirAll cache_dir,
                                     .writeFile path compressed_data, .removeFile path],
                                    if k = IoErrKind.notFound then
                                      [.debugRetryAfterWriteFail, .warnWriteFail]
                                    else
                                      [.debugRetryAfterWriteFail, .warnWriteFail,
                                       .warnCleanupFail])

/-- ModuleCacheEntry::update_data: discard the early-return marker of
update_data_impl, returning unit in every non-panicking case. -/
def ModuleCacheEntry.update_data (s : ConfState) (e : ModuleCacheEntry)
    (env : StoreEnv) : Option (Unit × List FsOp × List LogEvent) :=
  (e.update_data_impl s env).map (fun r => ((), r.2))

end EntryModel

/-- Effect of one filesystem operation on a filesystem (path to contents). -/
def FsOp.apply (fs : CPath → Option Bytes) : FsOp → (CPath → Option Bytes)
  | .readFile _ => fs
  | .writeFile p d => fun q => if q = p then some d else fs q
  | .createDirAll _ => fs
  | .removeFile p => fun q => if q = p then none else fs q

/-- Effect of a trace of filesystem operations, applied left to right. -/
def runTrace (ops : List FsOp) (fs : CPath → Option Bytes) : CPath → Option Bytes :=
  ops.foldl FsOp.apply fs

/-! ## ModuleCacheData and its tuple conversions -/

/-- ModuleCacheData: compilation, relocations, address transforms, value
ranges and stack slots.  The five component types are opaque collaborator
types (Compilation, Relocations, ModuleAddressMap, ValueLabelsRanges,
PrimaryMap of StackSlots), so the structure is polymorphic over them. -/
structure ModuleCacheData (A B C D E : Type) where
  compilation : A
  relocations : B
  address_transforms : C
  value_ranges : D
  stack_slots : E

/-- ModuleCacheData::from_tuple. -/
def ModuleCacheData.from_tuple {A B C D E : Type} (data : A × B × C × D × E) :
    ModuleCacheData A B C D E :=
  { compilation := data.1
    relocations := data.2.1
    address_transforms := data.2.2.1
    value_ranges := data.2.2.2.1
    stack_slots := data.2.2.2.2 }

/-- ModuleCacheData::to_tuple. -/
def ModuleCacheData.to_tuple {A B C D E : Type} (self : ModuleCacheData A B C D E) :
    A × B × C × D × E :=
  (self.compilation, self.relocations, self.address_transforms,
   self.value_ranges, self.stack_slots)

/-! ## Concrete instances used by witnesses -/

/-- A build environment for concrete evaluations. -/
def benv0 : BuildEnv :=
  { gitRev := "0000000".data, selfMtime := "no-mtime".data, debugAssertions := false }

/-- A frozen, enabled configuration state rooted at the empty path. -/
def confEnabled0 : ConfState :=
  { config := some { cache_enabled := true, cache_dir := [], compression_level := 0 },
    initCalled := true }

/-- A stand-in SHA-256 returning 32 zero bytes, used only to evaluate the
model at concrete inputs. -/
def sha0 : Bytes → Bytes := fun _ => List.replicate 32 0

/-- A stand-in byte-stream extraction over trivial module data. -/
def hfc0 : Unit → Unit → Bytes := fun _ _ => []

/-- A configuration-resolution environment in which every operation works
and identity-canonicalizes. -/
def cfgEnvOk : ConfigEnv :=
  { projectCacheDir := some [], createDirAllOk := fun _ => true,
    canonicalize := fun p => some p }

/-! ## Claim theorems -/

/-- C10: ModuleCacheData::from_tuple and ModuleCacheData::to_tuple are
mutually inverse: converting a tuple to the structure and back yields the
tuple, and converting a structure to the tuple and back yields the
structure. -/
theorem from_tuple_to_tuple_inverse :
    (∀ (A B C D E : Type) (t : A × B × C × D × E),
      (ModuleCacheData.from_tuple t).to_tuple = t) ∧
    (∀ (A B C D E : Type) (d : ModuleCacheData A B C D E),
      ModuleCacheData.from_tuple d.to_tuple = d) :=
  ⟨fun _ _ _ _ _ _ => rfl, fun _ _ _ _ _ _ => rfl⟩

/-- C1: get_data never raises an error: with no resolved path it returns
none performing no I/O; a read failure, a decompression failure or a
deserialization failure each yield none; a fully successful chain yields
some payload, so the only observable outcomes are some or none. -/
theorem get_data_total_miss_semantics (Payload : Type) (e : ModuleCacheEntry)
    (env : LoadEnv Payload) :
    (e.mod_cache_path = none → e.get_data env = (none, [], [])) ∧
    (∀ p, e.mod_cache_path = some p →
      ((env.readFile p = none → (e.get_data env).1 = none) ∧
       (∀ b, env.readFile p = some b → env.decompress b = none →
          (e.get_data env).1 = none) ∧
       (∀ b c, env.readFile p = some b → env.decompress b = some c →
          env.deserialize c = none → (e.get_data env).1 = none) ∧
       (∀ b c d, env.readFile p = some b → env.decompress b = some c →
          env.deserialize c = some d → (e.get_data env).1 = some d))) := by
  constructor
  · intro h
    simp [ModuleCacheEntry.get_data, h]
  · intro p hp
    refine ⟨?_, ?_, ?_, ?_⟩ <;> (intros; simp_all [ModuleCacheEntry.get_data])

/-- A load environment used for concrete evaluation of the model. -/
def loadEnv0 : LoadEnv Nat :=
  { readFile := fun _ => none, decompress := fun b => some b,
    deserialize := fun _ => none }

/-- Witness for C1 at a concrete pathless entry and environment. -/
theorem get_data_total_miss_semantics_witness :
    (ModuleCacheEntry.mk none).get_data loadEnv0 = (none, [], []) :=
  (get_data_total_miss_semantics Nat ⟨none⟩ loadEnv0).1 rfl

/-- C9: get_data never modifies the filesystem: its operation trace leaves
every filesystem unchanged, and on a corrupt entry (present file whose
bytes fail to decompress, or decompress but fail to deserialize) it
returns none while the corrupt file is still present with the same bytes
afterward, to be encountered again by the next load. -/
theorem get_data_frame (Payload : Type) (e : ModuleCacheEntry)
    (env : LoadEnv Payload) :
    (∀ fs q, runTrace (e.get_data env).2.1 fs q = fs q) ∧
    (∀ p b, e.mod_cache_path = some p → env.readFile p = some b →
       env.decompress b = none →
       (e.get_data env).1 = none ∧
       runTrace (e.get_data env).2.1 env.readFile p = some b) ∧
    (∀ p b c, e.mod_cache_path = some p → env.readFile p = some b →
       env.decompress b = some c → env.deserialize c = none →
       (e.get_data env).1 = none ∧
       runTrace (e.get_data env).2.1 env.readFile p = some b) := by
  have htrace : ∀ fs q, runTrace (e.get_data env).2.1 fs q = fs q := by
    intro fs q
    rcases he : e.mod_cache_path with _ | p
    · simp [ModuleCacheEntry.get_data, he, runTrace]
    · rcases hr : env.readFile p with _ | b
      · simp [ModuleCacheEntry.get_data, he, hr, runTrace, FsOp.apply]
      · rcases hd : env.decompress b with _ | c
        · simp [ModuleCacheEntry.get_data, he, hr, hd, runTrace, FsOp.apply]
        · rcases hs : env.deserialize c with _ | d <;>
            simp [ModuleCacheEntry.get_data, he, hr, hd, hs, runTrace, FsOp.apply]
  refine ⟨htrace, ?_, ?_⟩
  · intro p b hp hr hd
    refine ⟨?_, ?_⟩
    · simp [ModuleCacheEntry.get_data, hp, hr, hd]
    · rw [htrace env.readFile p, hr]
  · intro p b c hp hr hd hds
    refine ⟨?_, ?_⟩
    · simp [ModuleCacheEntry.get_data, hp, hr, hd, hds]
    · rw [htrace env.readFile p, hr]

/-- A load environment holding one corrupt file that fails to decompress. -/
def loadEnvCorrupt : LoadEnv Nat :=
  { readFile := fun _ => some [7], decompress := fun _ => none,
    deserialize := fun _ => some 0 }

/-- Witness for C9: a corrupt entry at a concrete path is a miss and the
file keeps its bytes. -/
theorem get_data_frame_witness :
    ((ModuleCacheEntry.mk (some [['a']])).get_data loadEnvCorrupt).1 = none ∧
    runTrace ((ModuleCacheEntry.mk (some [['a']])).get_data loadEnvCorrupt).2.1
      loadEnvCorrupt.readFile [['a']] = some [7] :=
  (get_data_frame Nat ⟨some [['a']]⟩ loadEnvCorrupt).2.1 [['a']] [7] rfl rfl rfl

/-- C5: conf::init is fatal on a second call, and fatal after an implicit
read froze the default-disabled configuration; the first implicit read
installs a disabled configuration; every read on a frozen state observes
that same configuration and leaves the state unchanged. -/
theorem conf_init_exactly_once :
    (∀ env s enabled dir lvl s2, conf.init env s enabled dir lvl = some s2 →
      ∀ env2 enabled2 dir2 lvl2, conf.init env2 s2 enabled2 dir2 lvl2 = none) ∧
    (∀ s : ConfState, s.config = none →
      conf.cache_enabled s =
        (false, { config := some Config.new_cache_disabled, initCalled := s.initCalled }) ∧
      conf.cache_enabled (conf.cache_enabled s).2 = (false, (conf.cache_enabled s).2) ∧
      (∀ env enabled dir lvl,
        conf.init env (conf.cache_enabled s).2 enabled dir lvl = none)) ∧
    (∀ s cfg, s.config = some cfg → conf.cache_enabled s = (cfg.cache_enabled, s)) := by
  refine ⟨?_, ?_, ?_⟩
  · intro env s enabled dir lvl s2 h env2 enabled2 dir2 lvl2
    unfold conf.init at h
    by_cases h1 : s.initCalled
    · simp [h1] at h
    · by_cases h2 : (s.config).isSome
      · simp [h1, h2] at h
      · simp [h1, h2] at h
        subst h
        simp [conf.init]
  · intro s hs
    refine ⟨?_, ?_, ?_⟩
    · simp [conf.cache_enabled, hs, Config.new_cache_disabled]
    · simp [conf.cache_enabled, hs, Config.new_cache_disabled]
    · intro env enabled dir lvl
      simp only [conf.cache_enabled, hs]
      by_cases h1 : s.initCalled <;> simp [conf.init, h1]
  · intro s cfg hs
    simp [conf.cache_enabled, hs]

/-- Witness for C5: on a never-touched state, the first read observes a
disabled configuration and a following explicit init panics. -/
theorem conf_init_exactly_once_witness :
    conf.cache_enabled ConfState.fresh =
      (false, { config := some Config.new_cache_disabled, initCalled := false }) ∧
    conf.init cfgEnvOk (conf.cache_enabled ConfState.fresh).2 true none none = none :=
  ⟨(conf_init_exactly_once.2.1 ConfState.fresh rfl).1,
   (conf_init_exactly_once.2.1 ConfState.fresh rfl).2.2 cfgEnvOk true none none⟩

/-- C6 (code bug evidence): reading conf::cache_directory or
conf::compression_level while the frozen configuration is disabled does
not panic, contrary to the claim and to the Panics-if-disabled doc comment
in the source: the Once cell holds a value, so try() succeeds and the
empty PathBuf and default level of the disabled configuration are
returned.  This holds both after init(enabled=false) and after an implicit
first read. -/
theorem cache_directory_disabled_returns_empty :
    conf.init cfgEnvOk ConfState.fresh false none none =
      some { config := some Config.new_cache_disabled, initCalled := true } ∧
    conf.cache_directory
      { config := some Config.new_cache_disabled, initCalled := true } = some [] ∧
    conf.compression_level
      { config := some Config.new_cache_disabled, initCalled := true } = some 0 ∧
    conf.cache_directory (conf.cache_enabled ConfState.fresh).2 = some [] :=
  ⟨rfl, rfl, rfl, rfl⟩

/-- C7: configuration resolution never propagates an error: enabled=false
yields the disabled configuration regardless of the other arguments;
enabled=true with a directory-creation failure or a canonicalization
failure falls back to the disabled configuration; on success the enabled
configuration holds the canonicalized path; when no directory is supplied
the platform default is resolved, with its own disabled fallback. -/
theorem config_new_never_fails (env : ConfigEnv) (dir : Option CPath) (lvl : Int) :
    (Config.new env false dir lvl = Config.new_cache_disabled) ∧
    (∀ d, env.createDirAllOk d = false →
       Config.new env true (some d) lvl = Config.new_cache_disabled) ∧
    (∀ d, env.createDirAllOk d = true → env.canonicalize d = none →
       Config.new env true (some d) lvl = Config.new_cache_disabled) ∧
    (∀ d p, env.createDirAllOk d = true → env.canonicalize d = some p →
       Config.new env true (some d) lvl =
         { cache_enabled := true, cache_dir := p, compression_level := lvl }) ∧
    (env.projectCacheDir = none →
       Config.new env true none lvl = Config.new_cache_disabled) ∧
    (∀ d, env.projectCacheDir = some d →
       Config.new env true none lvl = Config.new_step2 env d lvl) := by
  refine ⟨?_, ?_, ?_, ?_, ?_, ?_⟩ <;>
    (intros; simp_all [Config.new, Config.new_step2])

/-- Witness for C7: a fully working environment yields an enabled
configuration at the canonicalized directory. -/
theorem config_new_never_fails_witness :
    Config.new cfgEnvOk true (some [['c']]) 3 =
      { cache_enabled := true, cache_dir := [['c']], compression_level := 3 } :=
  (config_new_never_fails cfgEnvOk none 3).2.2.2.1 [['c']] [['c']] rfl rfl

/-- C2: update_data follows the two-phase write with cleanup and never
raises: with no resolved path it is a no-op; serialization or compression
failure abandons the store with only a warning; otherwise it writes
directly, and only on failure creates the parent directories recursively
and retries the write exactly once; if the retry fails it removes the
partial file, and a not-found removal outcome produces no cleanup warning
while any other removal failure does; whenever the configuration is frozen
the call returns normally (the unit value) in every case. -/
theorem update_data_two_phase (s : ConfState) (e : ModuleCacheEntry) (p : CPath)
    (env : StoreEnv) (sd cd : Bytes) (lvl : Int) (e1 e2 e3 : IoErrKind) :
    ((ModuleCacheEntry.mk none).update_data s env = some ((), [], [])) ∧
    ((s.config).isSome = true → (e.update_data s env).isSome = true) ∧
    (env.serializeR = none →
      (ModuleCacheEntry.mk (some p)).update_data s env =
        some ((), [], [.warnSerializeFail])) ∧
    (env.serializeR = some sd → conf.compression_level s = some lvl →
      env.compressR lvl = none →
      (ModuleCacheEntry.mk (some p)).update_data s env =
        some ((), [], [.warnCompressFail])) ∧
    (env.serializeR = some sd → conf.compression_level s = some lvl →
      env.compressR lvl = some cd → env.write1Err = none →
      (ModuleCacheEntry.mk (some p)).update_data s env =
        some ((), [.writeFile p cd], [])) ∧
    (env.serializeR = some sd → conf.compression_level s = some lvl →
      env.compressR lvl = some cd → env.write1Err = some e1 →
      env.mkdirErr = some e2 →
      (ModuleCacheEntry.mk (some p)).update_data s env =
        some ((), [.writeFile p cd, .createDirAll p.dropLast],
          [.debugRetryAfterWriteFail, .warnCreateDirFail])) ∧
    (env.serializeR = some sd → conf.compression_level s = some lvl →
      env.compressR lvl = some cd → env.write1Err = some e1 →
      env.mkdirErr = none → env.write2Err = none →
      (ModuleCacheEntry.mk (some p)).update_data s env =
        some ((), [.writeFile p cd, .createDirAll p.dropLast, .writeFile p cd],
          [.debugRetryAfterWriteFail])) ∧
    (env.serializeR = some sd → conf.compression_level s = some lvl →
      env.compressR lvl = some cd → env.write1Err = some e1 →
      env.mkdirErr = none → env.write2Err = some e3 → env.removeErr = none →
      (ModuleCacheEntry.mk (some p)).update_data s env =
        some ((), [.writeFile p cd, .createDirAll p.dropLast, .writeFile p cd,
          .removeFile p], [.debugRetryAfterWriteFail, .warnWriteFail])) ∧
    (env.serializeR = some sd → conf.compression_level s = some lvl →
      env.compressR lvl = some cd → env.write1Err = some e1 →
      env.mkdirErr = none → env.write2Err = some e3 →
      env.removeErr = some IoErrKind.notFound →
      (ModuleCacheEntry.mk (some p)).update_data s env =
        some ((), [.writeFile p cd, .createDirAll p.dropLast, .writeFile p cd,
          .removeFile p], [.debugRetryAfterWriteFail, .warnWriteFail])) ∧
    (env.serializeR = some sd → conf.compression_level s = some lvl →
      env.compressR lvl = some cd → env.write1Err = some e1 →
      env.mkdirErr = none → env.write2Err = some e3 →
      env.removeErr = some IoErrKind.other →
      (ModuleCacheEntry.mk (some p)).update_data s env =
        some ((), [.writeFile p cd, .createDirAll p.dropLast, .writeFile p cd,
          .removeFile p],
          [.debugRetryAfterWriteFail, .warnWriteFail, .warnCleanupFail])) := by
  refine ⟨?_, ?_, ?_, ?_, ?_, ?_, ?_, ?_, ?_, ?_⟩
  · simp [ModuleCacheEntry.update_data, ModuleCacheEntry.update_data_impl]
  · intro hc
    obtain ⟨c, hcfg⟩ := Option.isSome_iff_exists.mp hc
    unfold ModuleCacheEntry.update_data ModuleCacheEntry.update_data_impl
    simp only [conf.compression_level, hcfg, Option.map_some']
    rcases e.mod_cache_path with _ | q
    · simp
    · rcases env.serializeR with _ | sd'
      · simp
      · rcases env.compressR c.compression_level with _ | cd'
        · simp
        · rcases env.write1Err with _ | x1
          · simp
          · rcases env.mkdirErr with _ | x2
            · rcases env.write2Err with _ | x3
              · simp
              · rcases env.removeErr with _ | k
                · simp
                · rcases k <;> simp
            · simp
  all_goals (intros; simp_all [ModuleCacheEntry.update_data,
    ModuleCacheEntry.update_data_impl])

/-- A store environment in which the direct write fails, directory creation
succeeds, the retried write fails too, and the cleanup removal reports
not-found. -/
def storeEnvRetry : StoreEnv :=
  { serializeR := some [], compressR := fun _ => some [9],
    write1Err := some .other, mkdirErr := none,
    write2Err := some .other, removeErr := some .notFound }

/-- Witness for C2: the full retry-then-cleanup path at a concrete entry. -/
theorem update_data_two_phase_witness :
    (ModuleCacheEntry.mk (some [['a'], ['b']])).update_data confEnabled0 storeEnvRetry =
      some ((), [.writeFile [['a'], ['b']] [9], .createDirAll [['a']],
        .writeFile [['a'], ['b']] [9], .removeFile [['a'], ['b']]],
        [.debugRetryAfterWriteFail, .warnWriteFail]) :=
  (update_data_two_phase confEnabled0 ⟨none⟩ [['a'], ['b']] storeEnvRetry [] [9] 0
    .other .other .other).2.2.2.2.2.2.2.2.1 rfl rfl rfl rfl rfl rfl rfl

/-- Characterization of ModuleCacheEntry::new on a frozen enabled
configuration: the entry resolves to
cache_dir / triple / compiler_dir / mod-(base64 digest)(.d when debug). -/
theorem ModuleCacheEntry.new_enabled {Module FuncBodies : Type} (benv : BuildEnv)
    (s : ConfState) (sha256 : Bytes → Bytes)
    (hashForCache : Module → FuncBodies → Bytes) (m : Module) (f : FuncBodies)
    (isaTriple compiler_name : List Char) (dbg : Bool) (cfg : Config)
    (hs : s.config = some cfg) (hen : cfg.cache_enabled = true) :
    ModuleCacheEntry.new benv s sha256 hashForCache m f isaTriple compiler_name dbg =
      some (⟨some (cfg.cache_dir ++ [isaTriple,
        (if benv.debugAssertions then
           compiler_name ++ ('-' :: benv.gitRev) ++ ('-' :: benv.selfMtime)
         else compiler_name ++ ('-' :: benv.gitRev)),
        "mod-".data ++ base64UrlNoPad (Sha256Hasher.digest sha256 hashForCache m f) ++
          (if dbg then ".d".data else [])])⟩, s) := by
  simp [ModuleCacheEntry.new, conf.cache_enabled, conf.cache_directory, hs, hen]

/-- Every character emitted by base64 encoding, prefixed with mod-, lies in
the URL-safe alphabet. -/
theorem mod_prefix_enc_mem (enc : List Char) (henc : ∀ c ∈ enc, c ∈ base64UrlTable) :
    ∀ c ∈ "mod-".data ++ enc, c ∈ base64UrlTable := by
  intro c hc
  rcases List.mem_append.mp hc with h | h
  · have hm : ∀ c ∈ "mod-".data, c ∈ base64UrlTable := by decide
    exact hm c h
  · exact henc c h

/-- A list of alphabet characters never ends in dot-d, because the dot is
not in the alphabet. -/
theorem table_no_dot_suffix (l : List Char) (h : ∀ c ∈ l, c ∈ base64UrlTable) :
    ¬ ['.', 'd'] <:+ l := by
  rintro ⟨t, ht⟩
  have hdot : ('.' : Char) ∈ l := by
    rw [← ht]; simp
  exact absurd (h '.' hdot) (by decide)

/-- C3: the derived digest is independent of the target architecture, the
compiler identity and the debug-info flag: two calls to
ModuleCacheEntry::new that differ only in the ISA triple, compiler name or
generate_debug_info share one base64-encoded digest segment, computed by
Sha256Hasher::digest from the module and function bodies alone; the three
varying inputs show up only in the other path components. -/
theorem digest_independent_of_target {Module FuncBodies : Type} (benv : BuildEnv)
    (s : ConfState) (sha256 : Bytes → Bytes)
    (hashForCache : Module → FuncBodies → Bytes) (m : Module) (f : FuncBodies)
    (isa1 isa2 cname1 cname2 : List Char) (dbg1 dbg2 : Bool) (cfg : Config)
    (hs : s.config = some cfg) (hen : cfg.cache_enabled = true) :
    ∃ enc : List Char,
      enc = base64UrlNoPad (Sha256Hasher.digest sha256 hashForCache m f) ∧
      (∃ cdir1, ModuleCacheEntry.new benv s sha256 hashForCache m f isa1 cname1 dbg1 =
        some (⟨some (cfg.cache_dir ++ [isa1, cdir1,
          "mod-".data ++ enc ++ (if dbg1 then ".d".data else [])])⟩, s)) ∧
      (∃ cdir2, ModuleCacheEntry.new benv s sha256 hashForCache m f isa2 cname2 dbg2 =
        some (⟨some (cfg.cache_dir ++ [isa2, cdir2,
          "mod-".data ++ enc ++ (if dbg2 then ".d".data else [])])⟩, s)) :=
  ⟨_, rfl,
   ⟨_, ModuleCacheEntry.new_enabled benv s sha256 hashForCache m f isa1 cname1 dbg1
      cfg hs hen⟩,
   ⟨_, ModuleCacheEntry.new_enabled benv s sha256 hashForCache m f isa2 cname2 dbg2
      cfg hs hen⟩⟩

/-- Witness for C3 at trivial module data, two targets, compilers and
debug flags. -/
theorem digest_independent_of_target_witness :
    ∃ enc : List Char,
      enc = base64UrlNoPad (Sha256Hasher.digest sha0 hfc0 () ()) ∧
      (∃ cdir1, ModuleCacheEntry.new benv0 confEnabled0 sha0 hfc0 () ()
          "x".data "c1".data true =
        some (⟨some ([] ++ ["x".data, cdir1,
          "mod-".data ++ enc ++ (if true then ".d".data else [])])⟩, confEnabled0)) ∧
      (∃ cdir2, ModuleCacheEntry.new benv0 confEnabled0 sha0 hfc0 () ()
          "y".data "c2".data false =
        some (⟨some ([] ++ ["y".data, cdir2,
          "mod-".data ++ enc ++ (if false then ".d".data else [])])⟩, confEnabled0)) :=
  digest_independent_of_target benv0 confEnabled0 sha0 hfc0 () ()
    "x".data "y".data "c1".data "c2".data true false
    { cache_enabled := true, cache_dir := [], compression_level := 0 } rfl rfl

/-- C4: the resolved filename ends with dot-d exactly when debug-info
generation was requested, and two entries differing only in the debug flag
resolve to distinct paths. -/
theorem debug_suffix_controls_path {Module FuncBodies : Type} (benv : BuildEnv)
    (s : ConfState) (sha256 : Bytes → Bytes)
    (hashForCache : Module → FuncBodies → Bytes) (m : Module) (f : FuncBodies)
    (isaTriple compiler_name : List Char) (cfg : Config)
    (hs : s.config = some cfg) (hen : cfg.cache_enabled = true) :
    (∀ dbg : Bool, ∃ p fn,
       ModuleCacheEntry.new benv s sha256 hashForCache m f isaTriple compiler_name dbg =
         some (⟨some p⟩, s) ∧
       p.getLast? = some fn ∧
       (['.', 'd'] <:+ fn ↔ dbg = true)) ∧
    (∀ pT pF,
       ModuleCacheEntry.new benv s sha256 hashForCache m f isaTriple compiler_name true =
         some (⟨some pT⟩, s) →
       ModuleCacheEntry.new benv s sha256 hashForCache m f isaTriple compiler_name false =
         some (⟨some pF⟩, s) →
       pT ≠ pF) := by
  have henc : ∀ c ∈ base64UrlNoPad (Sha256Hasher.digest sha256 hashForCache m f),
      c ∈ base64UrlTable := fun c hc => base64UrlNoPad_mem _ c hc
  constructor
  · intro dbg
    refine ⟨cfg.cache_dir ++ [isaTriple,
        (if benv.debugAssertions then
           compiler_name ++ ('-' :: benv.gitRev) ++ ('-' :: benv.selfMtime)
         else compiler_name ++ ('-' :: benv.gitRev)),
        "mod-".data ++ base64UrlNoPad (Sha256Hasher.digest sha256 hashForCache m f) ++
          (if dbg then ".d".data else [])],
      "mod-".data ++ base64UrlNoPad (Sha256Hasher.digest sha256 hashForCache m f) ++
          (if dbg then ".d".data else []),
      ModuleCacheEntry.new_enabled benv s sha256 hashForCache m f
        isaTriple compiler_name dbg cfg hs hen, ?_, ?_⟩
    · rw [List.getLast?_append_cons]
      rfl
    · cases dbg
      · rw [if_neg (by simp : ¬(false = true)), List.append_nil]
        simp only [Bool.false_eq_true, iff_false]
        exact table_no_dot_suffix _ (mod_prefix_enc_mem _ henc)
      · rw [if_pos rfl]
        simp only [iff_true]
        exact ⟨"mod-".data ++ base64UrlNoPad (Sha256Hasher.digest sha256 hashForCache m f),
          by simp [List.append_assoc]⟩
  · intro pT pF hT hF
    rw [ModuleCacheEntry.new_enabled benv s sha256 hashForCache m f isaTriple
      compiler_name true cfg hs hen] at hT
    rw [ModuleCacheEntry.new_enabled benv s sha256 hashForCache m f isaTriple
      compiler_name false cfg hs hen] at hF
    simp only [Option.some.injEq, Prod.mk.injEq, ModuleCacheEntry.mk.injEq] at hT hF
    obtain ⟨hT1, -⟩ := hT
    obtain ⟨hF1, -⟩ := hF
    intro heq
    rw [← hT1, ← hF1] at heq
    have h3 := List.append_cancel_left heq
    simp only [List.cons.injEq, and_true] at h3
    obtain ⟨-, -, h4⟩ := h3
    simp only [if_true, Bool.false_eq_true, if_false, List.append_nil] at h4
    have h5 := congrArg List.length h4
    simp only [List.length_append, List.length_cons, List.length_nil] at h5
    omega

/-- Witness for C4: concrete debug entry whose filename ends in dot-d. -/
theorem debug_suffix_controls_path_witness :
    ∃ p fn,
      ModuleCacheEntry.new benv0 confEnabled0 sha0 hfc0 () () "x".data "c".data true =
        some (⟨some p⟩, confEnabled0) ∧
      p.getLast? = some fn ∧ (['.', 'd'] <:+ fn ↔ true = true) :=
  (debug_suffix_controls_path benv0 confEnabled0 sha0 hfc0 () () "x".data "c".data
    { cache_enabled := true, cache_dir := [], compression_level := 0 } rfl rfl).1 true

/-- C8 counterexample: at a concrete module the resolved filename has
4 + 43 characters (mod- plus the unpadded base64 of the 32-byte digest),
not 4 + 22 as the claim states. -/
theorem mod_filename_22_counterexample :
    ((ModuleCacheEntry.new benv0 confEnabled0 sha0 hfc0 () () [] [] false).map
      (fun r => r.1.mod_cache_path.map (fun p => (p.getLastD []).length))) =
      some (some 47) ∧ (47 : Nat) ≠ 4 + 22 := by
  constructor
  · rfl
  · decide

/-- C8 (amended): for every module the resolved filename is mod- followed
by exactly 43 base64 characters encoding the 256-bit key (an unpadded
base64 rendering of 32 bytes has 43 characters, not 22), plus the optional
dot-d suffix. -/
theorem mod_filename_43_base64 {Module FuncBodies : Type} (benv : BuildEnv)
    (s : ConfState) (sha256 : Bytes → Bytes)
    (hashForCache : Module → FuncBodies → Bytes) (m : Module) (f : FuncBodies)
    (isaTriple compiler_name : List Char) (dbg : Bool) (cfg : Config)
    (hs : s.config = some cfg) (hen : cfg.cache_enabled = true)
    (hlen : (Sha256Hasher.digest sha256 hashForCache m f).length = 32) :
    ∃ p enc,
      ModuleCacheEntry.new benv s sha256 hashForCache m f isaTriple compiler_name dbg =
        some (⟨some p⟩, s) ∧
      p.getLast? = some ("mod-".data ++ enc ++ (if dbg then ".d".data else [])) ∧
      enc.length = 43 ∧ (∀ c ∈ enc, c ∈ base64UrlTable) := by
  refine ⟨_, base64UrlNoPad (Sha256Hasher.digest sha256 hashForCache m f),
    ModuleCacheEntry.new_enabled benv s sha256 hashForCache m f isaTriple
      compiler_name dbg cfg hs hen, ?_, ?_, ?_⟩
  · rw [List.getLast?_append_cons]
    rfl
  · rw [base64UrlNoPad_length, hlen]
  · exact fun c hc => base64UrlNoPad_mem _ c hc

/-- Witness for the amended C8 at a concrete module. -/
theorem mod_filename_43_base64_witness :
    ∃ p enc,
      ModuleCacheEntry.new benv0 confEnabled0 sha0 hfc0 () () "x".data "c".data false =
        some (⟨some p⟩, confEnabled0) ∧
      p.getLast? = some ("mod-".data ++ enc ++ (if false then ".d".data else [])) ∧
      enc.length = 43 ∧ (∀ c ∈ enc, c ∈ base64UrlTable) :=
  mod_filename_43_base64 benv0 confEnabled0 sha0 hfc0 () () "x".data "c".data false
    { cache_enabled := true, cache_dir := [], compression_level := 0 } rfl rfl rfl
